import Mathlib

/-!
Verification of the Web3 construct stability scorer (`src/app.py`).

The program is a small catalog of construct profiles, a stability curve over
three runtime parameters, and a scoring function combining them. We embed the
numeric code over the real numbers. Python's float division raises on a zero
denominator, so `stability_curve` (and hence `compute_score`) returns an
`Option`, `none` standing for the raised `ZeroDivisionError`.
-/

namespace Web3

noncomputable section

/-- A catalog entry, mirroring the `Web3Construct` dataclass. -/
structure Web3Construct where
  key : String
  name : String
  category : String
  baseline_security : ℝ
  privacy_factor : ℝ
  scalability_factor : ℝ
  description : String

/-- The fixed construct catalog `CONSTRUCTS`, an association list keyed by the
construct key, mirroring the Python dict literal. -/
def CONSTRUCTS : List (String × Web3Construct) :=
  [ ("aztec-zk",
      { key := "aztec-zk"
        name := "Aztec-Style zk Circuit"
        category := "zk privacy"
        baseline_security := 0.81
        privacy_factor := 0.94
        scalability_factor := 0.58
        description := "Circuit-focused private computation with encrypted state roots." }),
    ("zama-fhe",
      { key := "zama-fhe"
        name := "Zama FHE Compute Layer"
        category := "fhe compute"
        baseline_security := 0.89
        privacy_factor := 0.87
        scalability_factor := 0.42
        description := "Fully homomorphic encrypted computation woven into Web3 data models." }),
    ("soundness-lab",
      { key := "soundness-lab"
        name := "Soundness-Driven Formal Model"
        category := "formal verification"
        baseline_security := 0.97
        privacy_factor := 0.51
        scalability_factor := 0.72
        description := "Extremely rigorous models built from formal proofs and verified semantics." }) ]

/-- The value computed by `stability_curve` when the throughput denominator is
nonzero: `max(0.0, min(1.0, (latency_term + sync_term + throughput_term) / 3))`. -/
def stability_value (latency_ms sync_ms : ℝ) (throughput : ℤ) : ℝ :=
  let latency_term := Real.exp (-latency_ms / 1500)
  let sync_term := Real.exp (-sync_ms / 800)
  let throughput_term := 1 / (1 + (throughput : ℝ) / 10000)
  max 0.0 (min 1.0 ((latency_term + sync_term + throughput_term) / 3))

/-- `stability_curve(latency_ms, sync_ms, throughput)`. Python float division
raises `ZeroDivisionError` when `1 + throughput / 10000` is zero, which we model
as `none`; otherwise the function returns the clamped average of the three
terms. -/
def stability_curve (latency_ms sync_ms : ℝ) (throughput : ℤ) : Option ℝ :=
  if 1 + (throughput : ℝ) / 10000 = 0 then none
  else some (stability_value latency_ms sync_ms throughput)

/-- The result dict built by `compute_score`. -/
structure ScoreResult where
  construct : String
  name : String
  category : String
  description : String
  latencyMs : ℝ
  syncMs : ℝ
  throughput : ℤ
  enableCommitments : Bool
  enableProofs : Bool
  enableFhe : Bool
  stabilityMultiplier : ℝ
  finalScore : ℝ

/-- Python's `round(x, 4)`, modelled over the reals: round to the nearest
multiple of `1/10000`. -/
def round4 (x : ℝ) : ℝ := (round (x * 10000) : ℤ) / 10000

/-- The base score accumulated by `compute_score` before the stability
multiplier is applied: the weighted sum of the construct's attributes, plus the
three conditional feature bonuses. -/
def base_score (construct : Web3Construct)
    (enable_commitments enable_proofs enable_fhe : Bool) : ℝ :=
  let base0 := construct.baseline_security * 0.40
    + construct.privacy_factor * 0.30
    + construct.scalability_factor * 0.30
  let base1 := if enable_commitments then base0 + 0.04 else base0
  let base2 := if enable_proofs then base1 + 0.07 else base1
  if enable_fhe then base2 + 0.05 else base2

/-- `compute_score`, mirroring lines 65–104 of `src/app.py`. It propagates the
`ZeroDivisionError` of `stability_curve` as `none`. -/
def compute_score (construct : Web3Construct) (latency_ms sync_ms : ℝ)
    (throughput : ℤ)
    (enable_commitments enable_proofs enable_fhe : Bool) : Option ScoreResult :=
  match stability_curve latency_ms sync_ms throughput with
  | none => none
  | some stability =>
    let base := base_score construct enable_commitments enable_proofs enable_fhe
    let final := max 0.0 (min 1.0 (base * stability))
    some
      { construct := construct.key
        name := construct.name
        category := construct.category
        description := construct.description
        latencyMs := latency_ms
        syncMs := sync_ms
        throughput := throughput
        enableCommitments := enable_commitments
        enableProofs := enable_proofs
        enableFhe := enable_fhe
        stabilityMultiplier := round4 stability
        finalScore := round4 final }

/-- The list of valid construct keys, as enumerated by the catalog
(`CONSTRUCTS.keys()`). -/
def construct_keys : List String := CONSTRUCTS.map Prod.fst

/-- The `--construct` option validation performed by `argparse` through
`choices=list(CONSTRUCTS.keys())` (line 111): a requested key outside the
enumerated choices is rejected with a usage error before any computation. -/
def parse_construct (s : String) : Except String String :=
  if construct_keys.contains s then Except.ok s else Except.error "invalid choice"

/-- The spec's `clamp(v, lo, hi)`. -/
def clamp (v lo hi : ℝ) : ℝ := max lo (min hi v)

/-- The stability formula exactly as the spec writes it, for refinement against
`stability_curve`: the average of the three decay/saturation terms, clamped to
`[0, 1]`. -/
def spec_stability (latencyMs syncMs : ℝ) (throughput : ℤ) : ℝ :=
  clamp ((Real.exp (-latencyMs / 1500) + Real.exp (-syncMs / 800)
    + 1 / (1 + (throughput : ℝ) / 10000)) / 3) 0 1

end

/-! ### Basic lemmas about the embedded definitions -/

lemma round4_mono {x y : ℝ} (h : x ≤ y) : round4 x ≤ round4 y := by
  unfold round4
  have hr : round (x * 10000) ≤ round (y * 10000) := by
    rw [round_eq, round_eq]
    exact Int.floor_le_floor (by linarith)
  have hc : ((round (x * 10000) : ℤ) : ℝ) ≤ ((round (y * 10000) : ℤ) : ℝ) :=
    Int.cast_le.mpr hr
  exact (div_le_div_iff_of_pos_right (by norm_num)).mpr hc

lemma round4_zero : round4 (0 : ℝ) = 0 := by
  unfold round4
  norm_num

lemma round4_one : round4 (1 : ℝ) = 1 := by
  unfold round4
  rw [one_mul, show ((10000 : ℝ)) = ((10000 : ℤ) : ℝ) by norm_num, round_intCast]
  norm_num

lemma round4_nonneg {x : ℝ} (h : 0 ≤ x) : 0 ≤ round4 x := by
  have := round4_mono h
  rwa [round4_zero] at this

lemma round4_le_one {x : ℝ} (h : x ≤ 1) : round4 x ≤ 1 := by
  have := round4_mono h
  rwa [round4_one] at this

lemma stability_value_nonneg (l s : ℝ) (t : ℤ) : 0 ≤ stability_value l s t := by
  unfold stability_value
  exact le_max_of_le_left (by norm_num)

lemma stability_value_le_one (l s : ℝ) (t : ℤ) : stability_value l s t ≤ 1 := by
  unfold stability_value
  exact max_le (by norm_num) (le_trans (min_le_left _ _) (by norm_num))

lemma stability_curve_defined {t : ℤ} (l s : ℝ) (h : 1 + (t : ℝ) / 10000 ≠ 0) :
    stability_curve l s t = some (stability_value l s t) := by
  unfold stability_curve
  simp [h]

lemma stability_curve_eq_some {l s : ℝ} {t : ℤ} {a : ℝ}
    (h : stability_curve l s t = some a) : a = stability_value l s t := by
  unfold stability_curve at h
  split at h
  · simp at h
  · exact (Option.some_inj.mp h).symm

lemma compute_score_eq_some (c : Web3Construct) (l s : ℝ) (t : ℤ)
    (cm pf fh : Bool) (h : 1 + (t : ℝ) / 10000 ≠ 0) :
    compute_score c l s t cm pf fh = some
      { construct := c.key
        name := c.name
        category := c.category
        description := c.description
        latencyMs := l
        syncMs := s
        throughput := t
        enableCommitments := cm
        enableProofs := pf
        enableFhe := fh
        stabilityMultiplier := round4 (stability_value l s t)
        finalScore := round4 (max 0.0 (min 1.0
          (base_score c cm pf fh * stability_value l s t))) } := by
  unfold compute_score
  rw [stability_curve_defined l s h]

lemma base_score_flags_le (c : Web3Construct) (cm pf fh : Bool) :
    base_score c false false false ≤ base_score c cm pf fh := by
  cases cm <;> cases pf <;> cases fh <;> simp [base_score] <;> linarith

lemma stability_value_le_of_terms {l1 s1 l2 s2 : ℝ} {t1 t2 : ℤ}
    (h : Real.exp (-l2 / 1500) + Real.exp (-s2 / 800) + 1 / (1 + (t2 : ℝ) / 10000)
      ≤ Real.exp (-l1 / 1500) + Real.exp (-s1 / 800) + 1 / (1 + (t1 : ℝ) / 10000)) :
    stability_value l2 s2 t2 ≤ stability_value l1 s1 t1 := by
  unfold stability_value
  exact max_le_max le_rfl (min_le_min le_rfl (by linarith))

/-! ### Claim theorems -/

/-- C2: for every input on which the throughput denominator is nonzero (so the
spec's formula denotes), `stability_curve` returns exactly
`clamp((exp(-latencyMs/1500) + exp(-syncMs/800) + 1/(1 + throughput/10000)) / 3, 0, 1)`,
the clamped average of the three terms. -/
theorem stability_curve_matches_spec (l s : ℝ) (t : ℤ)
    (h : 1 + (t : ℝ) / 10000 ≠ 0) :
    stability_curve l s t = some (spec_stability l s t) := by
  rw [stability_curve_defined l s h]
  unfold stability_value spec_stability clamp
  norm_num

/-- Witness for C2 at latency 0, sync 0, throughput 0. -/
theorem stability_curve_matches_spec_witness :
    stability_curve 0 0 0 = some (spec_stability 0 0 0) :=
  stability_curve_matches_spec 0 0 0 (by norm_num)

/-- C7: `stability_curve 0 0 0` is exactly `1`: each term evaluates to `1`,
the average is `1`, and the clamp is a no-op. -/
theorem stability_curve_at_zero : stability_curve 0 0 0 = some 1 := by
  simp [stability_curve, stability_value, Real.exp_zero]
  norm_num

/-- C1: whenever `compute_score` returns (throughput denominator nonzero), the
result's `finalScore` field is `clamp(base * stability, 0, 1)` rounded to 4
decimal places, where `base` is
`baselineSecurity*0.40 + privacyFactor*0.30 + scalabilityFactor*0.30` plus
`0.04` if commitments are enabled, `0.07` if proofs are enabled, and `0.05` if
FHE is enabled, and `stability` is the spec's stability formula. -/
theorem compute_score_matches_spec (c : Web3Construct) (l s : ℝ) (t : ℤ)
    (cm pf fh : Bool) (h : 1 + (t : ℝ) / 10000 ≠ 0) :
    ∃ r : ScoreResult, compute_score c l s t cm pf fh = some r ∧
      r.finalScore = round4 (clamp
        ((c.baseline_security * 0.40 + c.privacy_factor * 0.30
            + c.scalability_factor * 0.30
          + (if cm then (0.04 : ℝ) else 0) + (if pf then (0.07 : ℝ) else 0)
          + (if fh then (0.05 : ℝ) else 0))
          * spec_stability l s t) 0 1) := by
  refine ⟨_, compute_score_eq_some c l s t cm pf fh h, ?_⟩
  have hbase : base_score c cm pf fh
      = c.baseline_security * 0.40 + c.privacy_factor * 0.30
        + c.scalability_factor * 0.30
        + (if cm then (0.04 : ℝ) else 0) + (if pf then (0.07 : ℝ) else 0)
        + (if fh then (0.05 : ℝ) else 0) := by
    cases cm <;> cases pf <;> cases fh <;> simp [base_score]
  have hstab : spec_stability l s t = stability_value l s t := by
    unfold stability_value spec_stability clamp
    norm_num
  rw [hstab, ← hbase]
  unfold clamp
  norm_num

/-- Witness for C1: the aztec-zk construct with the CLI's default runtime
parameters and no flags. -/
theorem compute_score_matches_spec_witness :
    ∃ r : ScoreResult, compute_score
        { key := "aztec-zk"
          name := "Aztec-Style zk Circuit"
          category := "zk privacy"
          baseline_security := 0.81
          privacy_factor := 0.94
          scalability_factor := 0.58
          description := "Circuit-focused private computation with encrypted state roots." }
        180 950 3000 false false false = some r ∧
      r.finalScore = round4 (clamp
        (((0.81 : ℝ) * 0.40 + 0.94 * 0.30 + 0.58 * 0.30
          + (if false then (0.04 : ℝ) else 0) + (if false then (0.07 : ℝ) else 0)
          + (if false then (0.05 : ℝ) else 0))
          * spec_stability 180 950 3000) 0 1) :=
  compute_score_matches_spec _ 180 950 3000 false false false (by norm_num)

/-- C3: on every input where the score is computed, the stability multiplier
returned by `stability_curve` lies in `[0, 1]`, and the `finalScore` and
`stabilityMultiplier` fields of the returned `ScoreResult` lie in `[0, 1]` as
well. -/
theorem score_bounds (c : Web3Construct) (l s : ℝ) (t : ℤ) (cm pf fh : Bool)
    (h : 1 + (t : ℝ) / 10000 ≠ 0) :
    ∃ (v : ℝ) (r : ScoreResult),
      stability_curve l s t = some v ∧ 0 ≤ v ∧ v ≤ 1 ∧
      compute_score c l s t cm pf fh = some r ∧
      0 ≤ r.finalScore ∧ r.finalScore ≤ 1 ∧
      0 ≤ r.stabilityMultiplier ∧ r.stabilityMultiplier ≤ 1 := by
  refine ⟨stability_value l s t, _, stability_curve_defined l s h,
    stability_value_nonneg l s t, stability_value_le_one l s t,
    compute_score_eq_some c l s t cm pf fh h, ?_, ?_, ?_, ?_⟩
  · exact round4_nonneg (le_max_of_le_left (by norm_num))
  · refine round4_le_one (max_le (by norm_num)
      (le_trans (min_le_left _ _) (by norm_num)))
  · exact round4_nonneg (stability_value_nonneg l s t)
  · exact round4_le_one (stability_value_le_one l s t)

/-- C4 counterexample: at `throughput = -10000` the throughput term's
denominator `1 + throughput/10000` is exactly zero, so `stability_curve` does
not return normally — the division by zero raises (modelled as `none`) —
refuting the claim that every finite input, including negative throughput,
produces a valid result. -/
theorem stability_curve_raises_at_neg10000 :
    stability_curve 0 0 (-10000) = none := by
  simp [stability_curve]

/-- C4 amended: for every finite real `latencyMs` and `syncMs` and every
throughput other than `-10000` (where the denominator `1 + throughput/10000`
vanishes and the division raises), `stability_curve` returns normally with a
result in `[0, 1]`, including for negative inputs. -/
theorem stability_curve_total_away_from_pole (l s : ℝ) (t : ℤ)
    (ht : t ≠ -10000) :
    ∃ v : ℝ, stability_curve l s t = some v ∧ 0 ≤ v ∧ v ≤ 1 := by
  have h : 1 + (t : ℝ) / 10000 ≠ 0 := by
    intro hzero
    apply ht
    have : (t : ℝ) = ((-10000 : ℤ) : ℝ) := by push_cast; linarith
    exact_mod_cast this
  exact ⟨stability_value l s t, stability_curve_defined l s h,
    stability_value_nonneg l s t, stability_value_le_one l s t⟩

/-- Witness for the amended C4 at a negative latency, sync and throughput. -/
theorem stability_curve_total_away_from_pole_witness :
    ∃ v : ℝ, stability_curve (-5) (-7) (-3) = some v ∧ 0 ≤ v ∧ v ≤ 1 :=
  stability_curve_total_away_from_pole (-5) (-7) (-3) (by decide)

/-- C5 counterexample: with latency and sync fixed at `0`, increasing
throughput from `-20000` to `0` increases the stability multiplier from `1/3`
to `1`, refuting monotone non-increase in throughput on unconstrained inputs
(the throughput term jumps across its pole at `-10000`). -/
theorem stability_not_monotone_in_throughput :
    (-20000 : ℤ) ≤ 0 ∧
    stability_curve 0 0 (-20000) = some (1 / 3) ∧
    stability_curve 0 0 0 = some 1 ∧
    ¬ ((1 : ℝ) ≤ 1 / 3) := by
  refine ⟨by decide, ?_, ?_, by norm_num⟩
  · simp [stability_curve, stability_value, Real.exp_zero]
    norm_num
  · simp [stability_curve, stability_value, Real.exp_zero]
    norm_num

/-- C5 amended: the stability multiplier is monotone non-increasing in latency
and in sync separately, on all inputs where the curve returns; it is monotone
non-increasing in throughput provided both throughput values are greater than
`-10000` (the pole of the throughput term), the unconstrained version being
false. -/
theorem stability_monotone_amended :
    (∀ (l1 l2 s : ℝ) (t : ℤ) (a b : ℝ), l1 ≤ l2 →
      stability_curve l1 s t = some a → stability_curve l2 s t = some b →
      b ≤ a) ∧
    (∀ (l s1 s2 : ℝ) (t : ℤ) (a b : ℝ), s1 ≤ s2 →
      stability_curve l s1 t = some a → stability_curve l s2 t = some b →
      b ≤ a) ∧
    (∀ (l s : ℝ) (t1 t2 : ℤ) (a b : ℝ), -10000 < t1 → t1 ≤ t2 →
      stability_curve l s t1 = some a → stability_curve l s t2 = some b →
      b ≤ a) := by
  refine ⟨?_, ?_, ?_⟩
  · intro l1 l2 s t a b hl ha hb
    rw [stability_curve_eq_some ha, stability_curve_eq_some hb]
    refine stability_value_le_of_terms ?_
    have : Real.exp (-l2 / 1500) ≤ Real.exp (-l1 / 1500) :=
      Real.exp_le_exp.mpr (by linarith)
    linarith
  · intro l s1 s2 t a b hs ha hb
    rw [stability_curve_eq_some ha, stability_curve_eq_some hb]
    refine stability_value_le_of_terms ?_
    have : Real.exp (-s2 / 800) ≤ Real.exp (-s1 / 800) :=
      Real.exp_le_exp.mpr (by linarith)
    linarith
  · intro l s t1 t2 a b ht1 ht12 ha hb
    rw [stability_curve_eq_some ha, stability_curve_eq_some hb]
    refine stability_value_le_of_terms ?_
    have hc1 : (-10000 : ℝ) < (t1 : ℝ) := by exact_mod_cast ht1
    have hc12 : (t1 : ℝ) ≤ (t2 : ℝ) := by exact_mod_cast ht12
    have hpos : (0 : ℝ) < 1 + (t1 : ℝ) / 10000 := by linarith
    have : 1 / (1 + (t2 : ℝ) / 10000) ≤ 1 / (1 + (t1 : ℝ) / 10000) :=
      one_div_le_one_div_of_le hpos (by linarith)
    linarith

/-- Witness for the amended C5: throughput increased from `0` to `10000` drops
the stability multiplier from `1` to `5/6`. -/
theorem stability_monotone_amended_witness : (5 / 6 : ℝ) ≤ 1 := by
  refine stability_monotone_amended.2.2 0 0 0 10000 1 (5 / 6)
    (by decide) (by decide) ?_ ?_
  · simp [stability_curve, stability_value, Real.exp_zero]
    norm_num
  · simp [stability_curve, stability_value, Real.exp_zero]
    norm_num

/-- Witness for C3: the soundness-lab construct at zero runtime parameters with
all flags set. -/
theorem score_bounds_witness :
    ∃ (v : ℝ) (r : ScoreResult),
      stability_curve 0 0 0 = some v ∧ 0 ≤ v ∧ v ≤ 1 ∧
      compute_score
        { key := "soundness-lab"
          name := "Soundness-Driven Formal Model"
          category := "formal verification"
          baseline_security := 0.97
          privacy_factor := 0.51
          scalability_factor := 0.72
          description := "Extremely rigorous models built from formal proofs and verified semantics." }
        0 0 0 true true true = some r ∧
      0 ≤ r.finalScore ∧ r.finalScore ≤ 1 ∧
      0 ≤ r.stabilityMultiplier ∧ r.stabilityMultiplier ≤ 1 :=
  score_bounds _ 0 0 0 true true true (by norm_num)

/-- C6: for any construct and fixed runtime parameters (so the stability
multiplier is identical in both runs), enabling any subset of the three flags
yields a `finalScore` at least that of the run with all flags disabled. -/
theorem flags_never_decrease_score (c : Web3Construct) (l s : ℝ) (t : ℤ)
    (cm pf fh : Bool) (h : 1 + (t : ℝ) / 10000 ≠ 0) :
    ∃ r0 r : ScoreResult,
      compute_score c l s t false false false = some r0 ∧
      compute_score c l s t cm pf fh = some r ∧
      r0.finalScore ≤ r.finalScore := by
  refine ⟨_, _, compute_score_eq_some c l s t false false false h,
    compute_score_eq_some c l s t cm pf fh h, ?_⟩
  refine round4_mono (max_le_max le_rfl (min_le_min le_rfl ?_))
  exact mul_le_mul_of_nonneg_right (base_score_flags_le c cm pf fh)
    (stability_value_nonneg l s t)

/-- Witness for C6: zama-fhe with all three flags enabled against no flags. -/
theorem flags_never_decrease_score_witness :
    ∃ r0 r : ScoreResult,
      compute_score
        { key := "zama-fhe"
          name := "Zama FHE Compute Layer"
          category := "fhe compute"
          baseline_security := 0.89
          privacy_factor := 0.87
          scalability_factor := 0.42
          description := "Fully homomorphic encrypted computation woven into Web3 data models." }
        180 950 3000 false false false = some r0 ∧
      compute_score
        { key := "zama-fhe"
          name := "Zama FHE Compute Layer"
          category := "fhe compute"
          baseline_security := 0.89
          privacy_factor := 0.87
          scalability_factor := 0.42
          description := "Fully homomorphic encrypted computation woven into Web3 data models." }
        180 950 3000 true true true = some r ∧
      r0.finalScore ≤ r.finalScore :=
  flags_never_decrease_score _ 180 950 3000 true true true (by norm_num)

/-- C8: the catalog contains the three presets with exactly the specified
attribute values, and lookup of each key returns the corresponding profile. -/
theorem catalog_presets :
    CONSTRUCTS.lookup "aztec-zk" = some
      { key := "aztec-zk"
        name := "Aztec-Style zk Circuit"
        category := "zk privacy"
        baseline_security := 0.81
        privacy_factor := 0.94
        scalability_factor := 0.58
        description := "Circuit-focused private computation with encrypted state roots." } ∧
    CONSTRUCTS.lookup "zama-fhe" = some
      { key := "zama-fhe"
        name := "Zama FHE Compute Layer"
        category := "fhe compute"
        baseline_security := 0.89
        privacy_factor := 0.87
        scalability_factor := 0.42
        description := "Fully homomorphic encrypted computation woven into Web3 data models." } ∧
    CONSTRUCTS.lookup "soundness-lab" = some
      { key := "soundness-lab"
        name := "Soundness-Driven Formal Model"
        category := "formal verification"
        baseline_security := 0.97
        privacy_factor := 0.51
        scalability_factor := 0.72
        description := "Extremely rigorous models built from formal proofs and verified semantics." } :=
  ⟨rfl, rfl, rfl⟩

/-- C9: looking up a key that is not one of the enumerated catalog keys
returns no profile, and the CLI's `choices` validation rejects such a key
before any computation. -/
theorem unknown_construct_rejected (s : String) (h : s ∉ construct_keys) :
    CONSTRUCTS.lookup s = none ∧
    parse_construct s = Except.error "invalid choice" := by
  have hk : s ≠ "aztec-zk" ∧ s ≠ "zama-fhe" ∧ s ≠ "soundness-lab" := by
    simpa [construct_keys, CONSTRUCTS] using h
  have h1 : (s == "aztec-zk") = false := beq_eq_false_iff_ne.mpr hk.1
  have h2 : (s == "zama-fhe") = false := beq_eq_false_iff_ne.mpr hk.2.1
  have h3 : (s == "soundness-lab") = false := beq_eq_false_iff_ne.mpr hk.2.2
  constructor
  · simp [CONSTRUCTS, List.lookup, h1, h2, h3]
  · have hc : construct_keys.contains s = false := by
      simp [construct_keys, CONSTRUCTS, hk.1, hk.2.1, hk.2.2]
    simp [parse_construct, hc, h]

/-- Witness for C9 at the spec's example key `unknown-key`. -/
theorem unknown_construct_rejected_witness :
    CONSTRUCTS.lookup "unknown-key" = none ∧
    parse_construct "unknown-key" = Except.error "invalid choice" :=
  unknown_construct_rejected "unknown-key" (by decide)

/-- C10: for every catalog construct and every flag combination, the base score
lies in `[0.743, 0.94]`; consequently `base * stability` already lies in
`[0, 1]` and the final clamp is a no-op, so `finalScore` is
`round4 (base * stability)` with no clamping effect. -/
theorem base_bounded_clamp_noop (k : String) (c : Web3Construct)
    (hmem : (k, c) ∈ CONSTRUCTS) (cm pf fh : Bool) (l s : ℝ) (t : ℤ)
    (h : 1 + (t : ℝ) / 10000 ≠ 0) :
    0.743 ≤ base_score c cm pf fh ∧ base_score c cm pf fh ≤ 0.94 ∧
    ∃ r : ScoreResult, compute_score c l s t cm pf fh = some r ∧
      r.finalScore = round4 (base_score c cm pf fh * stability_value l s t) := by
  have hb : 0.743 ≤ base_score c cm pf fh ∧ base_score c cm pf fh ≤ 0.94 := by
    simp [CONSTRUCTS, Prod.ext_iff] at hmem
    rcases hmem with ⟨hk, hc⟩ | ⟨hk, hc⟩ | ⟨hk, hc⟩ <;> subst hc <;>
      cases cm <;> cases pf <;> cases fh <;>
        exact ⟨by norm_num [base_score], by norm_num [base_score]⟩
  refine ⟨hb.1, hb.2, _, compute_score_eq_some c l s t cm pf fh h, ?_⟩
  have hv0 := stability_value_nonneg l s t
  have hv1 := stability_value_le_one l s t
  have hx0 : 0 ≤ base_score c cm pf fh * stability_value l s t :=
    mul_nonneg (by linarith [hb.1]) hv0
  have hx1 : base_score c cm pf fh * stability_value l s t ≤ 1 := by
    have := mul_le_mul hb.2 hv1 hv0 (by norm_num : (0 : ℝ) ≤ 0.94)
    linarith
  have hclamp : max 0.0 (min 1.0
      (base_score c cm pf fh * stability_value l s t))
      = base_score c cm pf fh * stability_value l s t := by
    rw [show (0.0 : ℝ) = 0 by norm_num, show (1.0 : ℝ) = 1 by norm_num,
      min_eq_right hx1, max_eq_right hx0]
  rw [hclamp]

/-- Witness for C10: aztec-zk with all flags at the default runtime
parameters. -/
theorem base_bounded_clamp_noop_witness :
    0.743 ≤ base_score
      { key := "aztec-zk"
        name := "Aztec-Style zk Circuit"
        category := "zk privacy"
        baseline_security := 0.81
        privacy_factor := 0.94
        scalability_factor := 0.58
        description := "Circuit-focused private computation with encrypted state roots." }
      true true true ∧
    base_score
      { key := "aztec-zk"
        name := "Aztec-Style zk Circuit"
        category := "zk privacy"
        baseline_security := 0.81
        privacy_factor := 0.94
        scalability_factor := 0.58
        description := "Circuit-focused private computation with encrypted state roots." }
      true true true ≤ 0.94 ∧
    ∃ r : ScoreResult, compute_score
        { key := "aztec-zk"
          name := "Aztec-Style zk Circuit"
          category := "zk privacy"
          baseline_security := 0.81
          privacy_factor := 0.94
          scalability_factor := 0.58
          description := "Circuit-focused private computation with encrypted state roots." }
        180 950 3000 true true true = some r ∧
      r.finalScore = round4 (base_score
        { key := "aztec-zk"
          name := "Aztec-Style zk Circuit"
          category := "zk privacy"
          baseline_security := 0.81
          privacy_factor := 0.94
          scalability_factor := 0.58
          description := "Circuit-focused private computation with encrypted state roots." }
        true true true * stability_value 180 950 3000) :=
  base_bounded_clamp_noop "aztec-zk" _ (by simp [CONSTRUCTS])
    true true true 180 950 3000 (by norm_num)

end Web3
